import Mathlib

/-!
Verification of the playlist scheduling and crossfade audio engine of the
AI DJ service, as a shallow embedding of `src/main.py`, `src/audio_player.py`
and `src/announcement_generator.py`.

Section 1: data model and the scheduler mode state machine (`main.py`).
Section 2: the fetch-pair procedure of the queue manager (`_add_next_segment_to_queue`).
Section 3: the realtime crossfade volume ramp (`audio_player.py`).
Section 4: the song-overlap wait routine and the wait-for-completion routine.
Section 5: fallback behaviour of the announcement generator.
-/

namespace AIDJ

/-- Embeds `PlaylistItem.item_type` in `main.py`: one of the strings
`intro`, `song`, `news`. -/
inductive ItemType where
  | intro
  | song
  | news
deriving DecidableEq, Repr

/-- The two scheduler flags of `AIDJApp` that drive the manual-DJ mode
machine: `manual_dj_mode` and `pause_after_song` (both initially `False`). -/
structure SchedState where
  manualDjMode : Bool
  pauseAfterSong : Bool
deriving DecidableEq, Repr

/-- Initial scheduler flags from `AIDJApp.__init__` (`main.py` lines 49-50). -/
def initialState : SchedState := ⟨false, false⟩

/-- The post-item mode update of `_process_playlist` (`main.py` lines 262-268):
after an item finishes, if `pause_after_song` is set and the item was a song,
set `manual_dj_mode` and clear `pause_after_song`; otherwise leave the flags
alone. -/
def modeUpdate (st : SchedState) (k : ItemType) : SchedState :=
  if st.pauseAfterSong && (k == ItemType.song) then
    { manualDjMode := true, pauseAfterSong := false }
  else st

/-- Processing a run of completed items through the mode update. -/
def runItems (st : SchedState) : List ItemType → SchedState
  | [] => st
  | k :: ks => runItems (modeUpdate st k) ks

/-- The three operations that mutate the two flags: `_enable_manual_dj_mode`
(request pause), `_disable_manual_dj_mode` (resume), and the completion of an
item in `_process_playlist`. -/
inductive ModeOp where
  | requestPause
  | requestResume
  | completeItem (k : ItemType)
deriving DecidableEq, Repr

/-- Embeds `_enable_manual_dj_mode` (`main.py` lines 120-129): no-op when already in
manual mode, else sets `pause_after_song`.  `_disable_manual_dj_mode`
(lines 131-138): no-op when not in manual mode, else clears both flags.
Item completion applies `modeUpdate`. -/
def applyOp (st : SchedState) : ModeOp → SchedState
  | ModeOp.requestPause =>
      if st.manualDjMode then st else { st with pauseAfterSong := true }
  | ModeOp.requestResume =>
      if st.manualDjMode then { manualDjMode := false, pauseAfterSong := false } else st
  | ModeOp.completeItem k => modeUpdate st k

/-- Running a sequence of mode operations from a given state. -/
def runOps (st : SchedState) (ops : List ModeOp) : SchedState :=
  ops.foldl applyOp st

/-- The mutual-exclusion invariant on the two flags. -/
def flagsOk (st : SchedState) : Bool :=
  !(st.manualDjMode && st.pauseAfterSong)

lemma modeUpdate_of_not_song (st : SchedState) (k : ItemType)
    (hk : k ≠ ItemType.song) : modeUpdate st k = st := by
  unfold modeUpdate
  cases k <;> simp_all

lemma flagsOk_applyOp (st : SchedState) (op : ModeOp)
    (h : flagsOk st = true) : flagsOk (applyOp st op) = true := by
  cases op with
  | requestPause =>
      unfold applyOp flagsOk at *
      cases hm : st.manualDjMode <;> simp_all
  | requestResume =>
      unfold applyOp flagsOk at *
      cases hm : st.manualDjMode <;> simp_all
  | completeItem k =>
      show flagsOk (modeUpdate st k) = true
      unfold modeUpdate flagsOk at *
      cases hp : st.pauseAfterSong <;> cases k <;> simp_all

lemma flagsOk_runOps (st : SchedState) (ops : List ModeOp)
    (h : flagsOk st = true) : flagsOk (runOps st ops) = true := by
  induction ops generalizing st with
  | nil => simpa [runOps] using h
  | cons op ops ih =>
      have := flagsOk_applyOp st op h
      simpa [runOps, List.foldl] using ih (applyOp st op) this

lemma runItems_no_song (st : SchedState) (ks : List ItemType)
    (h : ItemType.song ∉ ks) : runItems st ks = st := by
  induction ks generalizing st with
  | nil => rfl
  | cons k ks ih =>
      have hk : k ≠ ItemType.song := by
        intro hkk; exact h (by simp [hkk])
      have hks : ItemType.song ∉ ks := by
        intro hmem; exact h (List.mem_cons_of_mem _ hmem)
      rw [runItems, modeUpdate_of_not_song st k hk, ih st hks]

/-- C3: Manual mode is entered by a completing item exactly when a pause was
pending and the completed item was a song; entering Manual clears the pending
pause; and no run of completed items that contains no song ever changes the
manual flag (a pause requested during intro/news items stays pending). -/
theorem mode_transition_law (st : SchedState) (k : ItemType) (ks : List ItemType)
    (h : st.manualDjMode = false) :
    ((modeUpdate st k).manualDjMode = true ↔
      (st.pauseAfterSong = true ∧ k = ItemType.song)) ∧
    ((modeUpdate st k).manualDjMode = true → (modeUpdate st k).pauseAfterSong = false) ∧
    (ItemType.song ∉ ks → (runItems st ks).manualDjMode = false) := by
  refine ⟨?_, ?_, ?_⟩
  · unfold modeUpdate
    cases hp : st.pauseAfterSong <;> cases k <;> simp_all
  · unfold modeUpdate
    cases hp : st.pauseAfterSong <;> cases k <;> simp_all
  · intro hns
    rw [runItems_no_song st ks hns, h]

/-- Witness for `mode_transition_law` at the state (Auto, pause pending),
a completing song, and a song-free run of completed items. -/
theorem mode_transition_law_witness :
    ((modeUpdate ⟨false, true⟩ ItemType.song).manualDjMode = true ↔
      ((true : Bool) = true ∧ ItemType.song = ItemType.song)) ∧
    ((modeUpdate ⟨false, true⟩ ItemType.song).manualDjMode = true →
      (modeUpdate ⟨false, true⟩ ItemType.song).pauseAfterSong = false) ∧
    (ItemType.song ∉ [ItemType.intro, ItemType.news] →
      (runItems ⟨false, true⟩ [ItemType.intro, ItemType.news]).manualDjMode = false) :=
  mode_transition_law ⟨false, true⟩ ItemType.song [ItemType.intro, ItemType.news] rfl

/-- C10: along every operation sequence from the initial state the flags
`manual_dj_mode` and `pause_after_song` are never both true; a pause request
in manual mode is a no-op; a resume in manual mode clears both flags; and an
item completion that newly enters manual mode clears the pending pause in the
same step. -/
theorem manual_pause_exclusive (ops : List ModeOp) :
    flagsOk (runOps initialState ops) = true ∧
    (∀ st : SchedState, st.manualDjMode = true →
      applyOp st ModeOp.requestPause = st) ∧
    (∀ st : SchedState, st.manualDjMode = true →
      applyOp st ModeOp.requestResume = ⟨false, false⟩) ∧
    (∀ (st : SchedState) (k : ItemType), st.manualDjMode = false →
      (modeUpdate st k).manualDjMode = true →
      (modeUpdate st k).pauseAfterSong = false) := by
  refine ⟨flagsOk_runOps initialState ops rfl, ?_, ?_, ?_⟩
  · intro st hm
    unfold applyOp
    simp [hm]
  · intro st hm
    unfold applyOp
    simp [hm]
  · intro st k hm
    unfold modeUpdate
    cases hp : st.pauseAfterSong <;> cases k <;> simp_all

/-- Witness for `manual_pause_exclusive` on a concrete operation sequence and
concrete states discharging each inner hypothesis. -/
theorem manual_pause_exclusive_witness :
    flagsOk (runOps initialState
      [ModeOp.requestPause, ModeOp.completeItem ItemType.song,
        ModeOp.requestResume]) = true ∧
    applyOp ⟨true, false⟩ ModeOp.requestPause = ⟨true, false⟩ ∧
    applyOp ⟨true, false⟩ ModeOp.requestResume = ⟨false, false⟩ ∧
    (modeUpdate ⟨false, true⟩ ItemType.song).pauseAfterSong = false := by
  obtain ⟨h1, h2, h3, h4⟩ := manual_pause_exclusive
    [ModeOp.requestPause, ModeOp.completeItem ItemType.song, ModeOp.requestResume]
  exact ⟨h1, h2 ⟨true, false⟩ rfl, h3 ⟨true, false⟩ rfl,
    h4 ⟨false, true⟩ ItemType.song rfl (by decide)⟩

/-! ### Section 2: the fetch-pair procedure of the queue manager

`_add_next_segment_to_queue` (`main.py` lines 182-235) runs inside one big
`try`: select a song, decide the segment kind from `songs_since_news` against
`news_frequency` (updating the counter), generate the script text, create the
mixed introduction audio (verifying the file), and only then append the
segment item followed by the song item.  Any exception lands in the handler,
which logs and leaves the queue untouched.  The three `Bool` parameters below
say whether the song selection, the script generation and the mix/verify step
succeed; the counter is mutated after generation but before mixing, exactly
as in the source. -/

/-- The `news_frequency` value from `AIDJApp.__init__` (`main.py` line 47). -/
def newsFrequency : ℕ := 3

/-- One run of `_add_next_segment_to_queue` over the counter and the queue of
item kinds.  Returns the new `songs_since_news` counter and the new queue. -/
def addNextSegmentToQueue (selectOk genOk mixOk : Bool)
    (c : ℕ) (q : List ItemType) : ℕ × List ItemType :=
  if selectOk = false then (c, q)
  else if genOk = false then (c, q)
  else
    let shouldPlayNews := newsFrequency ≤ c
    let kind := if shouldPlayNews then ItemType.news else ItemType.intro
    let c' := if shouldPlayNews then 0 else c + 1
    if mixOk = false then (c', q)
    else (c', q ++ [kind, ItemType.song])

/-- A fully successful fetch-pair operation, iterated for the cadence claims. -/
def fetchOk (s : ℕ × List ItemType) : ℕ × List ItemType :=
  addNextSegmentToQueue true true true s.1 s.2

/-- The pairing invariant: every intro/news entry is immediately followed by a
song entry. -/
def pairedQueue : List ItemType → Bool
  | [] => true
  | ItemType.song :: rest => pairedQueue rest
  | ItemType.intro :: ItemType.song :: rest => pairedQueue rest
  | ItemType.news :: ItemType.song :: rest => pairedQueue rest
  | _ => false

lemma pairedQueue_append_pair (q : List ItemType) (k : ItemType)
    (h : pairedQueue q = true) :
    pairedQueue (q ++ [k, ItemType.song]) = true := by
  induction q using pairedQueue.induct with
  | case1 => cases k <;> simp [pairedQueue]
  | case2 rest ih =>
      rw [List.cons_append, pairedQueue] at *
      exact ih h
  | case3 rest ih =>
      rw [pairedQueue] at h
      simpa [pairedQueue] using ih h
  | case4 rest ih =>
      rw [pairedQueue] at h
      simpa [pairedQueue] using ih h
  | case5 q hq1 hq2 hq3 hq4 =>
      revert h
      match q, hq1, hq2, hq3, hq4 with
      | [], h1, _, _, _ => exact fun _ => (h1 rfl).elim
      | ItemType.song :: rest, _, h2, _, _ => exact fun _ => (h2 rest rfl).elim
      | ItemType.intro :: ItemType.song :: rest, _, _, h3, _ =>
          exact fun _ => (h3 rest rfl).elim
      | ItemType.news :: ItemType.song :: rest, _, _, _, h4 =>
          exact fun _ => (h4 rest rfl).elim
      | [ItemType.intro], _, _, _, _ => intro h; simp [pairedQueue] at h
      | [ItemType.news], _, _, _, _ => intro h; simp [pairedQueue] at h
      | ItemType.intro :: ItemType.intro :: rest, _, _, _, _ =>
          intro h; simp [pairedQueue] at h
      | ItemType.intro :: ItemType.news :: rest, _, _, _, _ =>
          intro h; simp [pairedQueue] at h
      | ItemType.news :: ItemType.intro :: rest, _, _, _, _ =>
          intro h; simp [pairedQueue] at h
      | ItemType.news :: ItemType.news :: rest, _, _, _, _ =>
          intro h; simp [pairedQueue] at h

/-- C5: one fetch-pair run preserves the pairing invariant, and if any
collaborator step fails, the queue is left exactly as it was (nothing is
enqueued). -/
theorem pair_atomicity (selectOk genOk mixOk : Bool) (c : ℕ) (q : List ItemType)
    (h : pairedQueue q = true) :
    pairedQueue (addNextSegmentToQueue selectOk genOk mixOk c q).2 = true ∧
    (selectOk = false ∨ genOk = false ∨ mixOk = false →
      (addNextSegmentToQueue selectOk genOk mixOk c q).2 = q) := by
  unfold addNextSegmentToQueue
  cases selectOk <;> cases genOk <;> cases mixOk <;>
    simp_all [pairedQueue_append_pair]

/-- Witness for `pair_atomicity`: a failing mix step on a queue already
holding one pair. -/
theorem pair_atomicity_witness :
    pairedQueue (addNextSegmentToQueue true true false 1
      [ItemType.intro, ItemType.song]).2 = true ∧
    ((true : Bool) = false ∨ (true : Bool) = false ∨ (false : Bool) = false →
      (addNextSegmentToQueue true true false 1
        [ItemType.intro, ItemType.song]).2 = [ItemType.intro, ItemType.song]) :=
  pair_atomicity true true false 1 [ItemType.intro, ItemType.song] (by decide)

/-- C4 counterexample: with `news_frequency = 3` and `songs_since_news = 0`,
the third successful fetch-pair still produces an Introduction pair (the
counter reaches 3 only afterwards), contradicting the claim that the third
fetch produces a News pair. -/
theorem news_cadence_counterexample :
    (fetchOk (fetchOk (fetchOk (0, [])))).2 =
      [ItemType.intro, ItemType.song, ItemType.intro, ItemType.song,
        ItemType.intro, ItemType.song] ∧
    (fetchOk (fetchOk (fetchOk (0, [])))).1 = 3 := by
  decide

/-- C4 amended: starting from a fresh counter, the first three successful
fetch-pair operations each produce an Introduction pair and increment the
counter; the fourth produces a News pair and resets the counter to zero. -/
theorem news_cadence_amended :
    (fetchOk (0, [])).2 = [ItemType.intro, ItemType.song] ∧
    (fetchOk (0, [])).1 = 1 ∧
    (fetchOk (fetchOk (0, []))).2 =
      [ItemType.intro, ItemType.song, ItemType.intro, ItemType.song] ∧
    (fetchOk (fetchOk (0, []))).1 = 2 ∧
    (fetchOk (fetchOk (fetchOk (0, [])))).1 = 3 ∧
    (fetchOk (fetchOk (fetchOk (fetchOk (0, []))))).2 =
      [ItemType.intro, ItemType.song, ItemType.intro, ItemType.song,
        ItemType.intro, ItemType.song, ItemType.news, ItemType.song] ∧
    (fetchOk (fetchOk (fetchOk (fetchOk (0, []))))).1 = 0 := by
  decide

/-! ### Section 3: the realtime crossfade volume ramp

`_execute_realtime_crossfade` (`audio_player.py` lines 475-527) fixes
`steps = 50` and spawns `crossfade_volumes`, which loops `step` from 0 to
`steps` inclusive: it breaks if the incoming channel is no longer busy,
computes `current_volume = 1.0 - step/steps` (0.0 if the outgoing channel is
not busy) and `next_volume = step/steps`, applies them, and sleeps.  After the
loop it stops the outgoing channel if still busy and forces the incoming
channel to volume 1 if still busy.  The whole body, including that terminal
block, sits inside a `try` whose `except` only logs.  Volumes are modelled in
ℚ; an optional `errorAt` index marks the loop iteration at which an exception
is raised. -/

/-- The constant `steps = 50` in `_execute_realtime_crossfade`. -/
def crossfadeSteps : ℕ := 50

/-- The assignment `current_volume = 1.0 - (step / steps) if current_active else 0.0`. -/
def currentVolume (active : Bool) (s : ℕ) : ℚ :=
  if active then 1 - (s : ℚ) / (crossfadeSteps : ℚ) else 0

/-- The assignment `next_volume = step / steps`. -/
def nextVolume (s : ℕ) : ℚ :=
  (s : ℚ) / (crossfadeSteps : ℚ)

/-- A pygame channel as the ramp sees it: busy flag and current volume. -/
structure ChannelState where
  busy : Bool
  volume : ℚ
deriving DecidableEq, Repr

/-- The outgoing (`current_channel`) and incoming (`next_channel`) channels. -/
structure EngineChannels where
  current : ChannelState
  next : ChannelState
deriving DecidableEq, Repr

/-- The volume assignments of one loop iteration: the outgoing volume is only set
when the outgoing channel is busy; the incoming volume is always set (the
loop has already checked that the incoming channel is busy). -/
def stepVolumes (s : ℕ) (ch : EngineChannels) : EngineChannels :=
  { current :=
      if ch.current.busy then { ch.current with volume := currentVolume true s }
      else ch.current,
    next := { ch.next with volume := nextVolume s } }

/-- The post-loop terminal block: stop the outgoing channel if busy, force the
incoming channel to volume 1 if busy. -/
def finalizeCrossfade (ch : EngineChannels) : EngineChannels :=
  { current :=
      if ch.current.busy then { ch.current with busy := false } else ch.current,
    next :=
      if ch.next.busy then { ch.next with volume := 1 } else ch.next }

/-- Outcome of `crossfade_volumes`: either the body ran to its end (loop plus
terminal block), or an exception was caught by the handler, which only logs —
the terminal block is skipped and the channels keep their last states. -/
inductive RampOutcome where
  | finished (ch : EngineChannels)
  | errored (ch : EngineChannels)
deriving DecidableEq, Repr

/-- The channel states left behind by the ramp task. -/
def channelsOf : RampOutcome → EngineChannels
  | RampOutcome.finished ch => ch
  | RampOutcome.errored ch => ch

/-- The ramp loop from iteration `s` with `rem` iterations remaining.
`errorAt = some k` injects an exception at the start of iteration `k`. -/
def rampFrom (errorAt : Option ℕ) : ℕ → ℕ → EngineChannels → RampOutcome
  | 0, _, ch => RampOutcome.finished (finalizeCrossfade ch)
  | rem + 1, s, ch =>
      if errorAt = some s then RampOutcome.errored ch
      else if ch.next.busy = false then RampOutcome.finished (finalizeCrossfade ch)
      else rampFrom errorAt rem (s + 1) (stepVolumes s ch)

/-- The whole `crossfade_volumes` task: `steps + 1` loop iterations starting
at step 0, then the terminal block. -/
def runRamp (errorAt : Option ℕ) (ch : EngineChannels) : RampOutcome :=
  rampFrom errorAt (crossfadeSteps + 1) 0 ch

/-- The safe terminal state claimed by the spec: outgoing stopped, incoming at
volume 1. -/
def isSafeTerminal (ch : EngineChannels) : Bool :=
  !ch.current.busy && decide (ch.next.volume = 1)

/-- C1: the ramp uses 50 ≥ 30 discrete steps; at every step the outgoing plus
incoming volumes sum to exactly 1; the outgoing volume is non-increasing from
1 at step 0 to 0 at the last step, and the incoming volume is non-decreasing
from 0 to 1. -/
theorem crossfade_volume_envelope (s t : ℕ) (hs : s ≤ crossfadeSteps)
    (ht : t ≤ crossfadeSteps) (hst : s ≤ t) :
    30 ≤ crossfadeSteps ∧
    currentVolume true s + nextVolume s = 1 ∧
    currentVolume true t ≤ currentVolume true s ∧
    nextVolume s ≤ nextVolume t ∧
    currentVolume true 0 = 1 ∧ currentVolume true crossfadeSteps = 0 ∧
    nextVolume 0 = 0 ∧ nextVolume crossfadeSteps = 1 := by
  have hc : ((crossfadeSteps : ℕ) : ℚ) = 50 := by norm_num [crossfadeSteps]
  have hqst : (s : ℚ) ≤ (t : ℚ) := by exact_mod_cast hst
  refine ⟨by norm_num [crossfadeSteps], ?_, ?_, ?_, ?_, ?_, ?_, ?_⟩
  · simp only [currentVolume, nextVolume, if_pos]
    ring
  · simp only [currentVolume, if_pos, hc]
    linarith
  · simp only [nextVolume, hc]
    linarith
  · simp only [currentVolume, if_pos, hc]
    norm_num
  · simp only [currentVolume, if_pos, hc]
    norm_num
  · simp only [nextVolume, hc]
    norm_num
  · simp only [nextVolume, hc]
    norm_num

/-- Witness for `crossfade_volume_envelope` at steps 10 and 20. -/
theorem crossfade_volume_envelope_witness :
    30 ≤ crossfadeSteps ∧
    currentVolume true 10 + nextVolume 10 = 1 ∧
    currentVolume true 20 ≤ currentVolume true 10 ∧
    nextVolume 10 ≤ nextVolume 20 ∧
    currentVolume true 0 = 1 ∧ currentVolume true crossfadeSteps = 0 ∧
    nextVolume 0 = 0 ∧ nextVolume crossfadeSteps = 1 :=
  crossfade_volume_envelope 10 20 (by decide) (by decide) (by decide)

/-- C2 counterexample: an exception at loop iteration 10 of a crossfade whose
channels are both busy is merely logged; the terminal block is skipped, the
outgoing channel stays busy at volume 41/50 and the incoming channel stays at
volume 9/50 — not the claimed safe terminal state. -/
theorem crossfade_ramp_error_counterexample :
    isSafeTerminal (channelsOf (runRamp (some 10) ⟨⟨true, 1⟩, ⟨true, 0⟩⟩)) = false ∧
    runRamp (some 10) ⟨⟨true, 1⟩, ⟨true, 0⟩⟩ =
      RampOutcome.errored ⟨⟨true, currentVolume true 9⟩, ⟨true, nextVolume 9⟩⟩ ∧
    currentVolume true 9 = 41 / 50 ∧ nextVolume 9 = 9 / 50 :=
  ⟨rfl, rfl, by norm_num [currentVolume, nextVolume, crossfadeSteps],
    by norm_num [nextVolume, crossfadeSteps]⟩

lemma stepVolumes_next_busy (s : ℕ) (ch : EngineChannels) :
    (stepVolumes s ch).next.busy = ch.next.busy := rfl

lemma rampFrom_none_finished (rem : ℕ) :
    ∀ (s : ℕ) (ch : EngineChannels), ch.next.busy = true →
      ∃ ch', rampFrom none rem s ch = RampOutcome.finished (finalizeCrossfade ch') ∧
        ch'.next.busy = true := by
  induction rem with
  | zero => intro s ch h; exact ⟨ch, rfl, h⟩
  | succ rem ih =>
      intro s ch h
      have hstep : (stepVolumes s ch).next.busy = true := by
        rw [stepVolumes_next_busy]; exact h
      obtain ⟨ch', h1, h2⟩ := ih (s + 1) (stepVolumes s ch) hstep
      refine ⟨ch', ?_, h2⟩
      rw [rampFrom]
      simp only [h, if_neg, reduceCtorEq]
      simpa using h1

lemma finalizeCrossfade_safe (ch : EngineChannels) (h : ch.next.busy = true) :
    isSafeTerminal (finalizeCrossfade ch) = true := by
  unfold isSafeTerminal finalizeCrossfade
  cases hb : ch.current.busy <;> simp [h, hb]

/-- C2 amended: a ramp task that runs without an exception always ends in the
safe terminal state (outgoing stopped, incoming at volume 1, provided the
incoming channel is busy when the ramp starts); but an exception mid-flight is
only logged and leaves the channels as they were (see the counterexample). -/
theorem crossfade_terminal_state (ch : EngineChannels) (h : ch.next.busy = true) :
    isSafeTerminal (channelsOf (runRamp none ch)) = true := by
  obtain ⟨ch', h1, h2⟩ := rampFrom_none_finished (crossfadeSteps + 1) 0 ch h
  rw [runRamp, h1]
  exact finalizeCrossfade_safe ch' h2

/-- Witness for `crossfade_terminal_state` on a concrete pair of busy
channels. -/
theorem crossfade_terminal_state_witness :
    isSafeTerminal (channelsOf (runRamp none ⟨⟨true, 1⟩, ⟨true, 0⟩⟩)) = true :=
  crossfade_terminal_state ⟨⟨true, 1⟩, ⟨true, 0⟩⟩ rfl

/-! ### Section 4: wait routines and the crossfade play error path

`_wait_for_song_with_overlap` (`main.py` lines 305-333) probes the song
duration, computes `overlap_start_time = max(3.0, song_duration -
self.song_overlap_duration)`, then polls every 0.1 s while the engine is
playing: as soon as the elapsed time reaches the overlap point it sets
`overlap_allowed` and breaks, after which a second loop waits for the engine
to stop.  Time is modelled in ticks of 0.1 s: tick `t` corresponds to an
elapsed time of `t / 10` seconds, and the engine plays for `playingTicks`
ticks. -/

/-- The value `song_overlap_duration = 2.0` (`main.py` line 54). -/
def songOverlapDuration : ℚ := 2

/-- The computation `overlap_start_time = max(3.0, song_duration - self.song_overlap_duration)`
(`main.py` line 313). -/
def overlapStartTime (songDuration : ℚ) : ℚ :=
  max 3 (songDuration - songOverlapDuration)

/-- The first polling loop of `_wait_for_song_with_overlap`: while the song is
still playing (`rem` ticks of playback remain), check whether the elapsed time
`t / 10` has reached the overlap point; if so the `overlap_allowed` flag is
raised at tick `t` (returned as `some t`), otherwise sleep one tick.  If
playback ends first, the loop exits without raising the flag (`none`). -/
def overlapPollLoop (overlapPoint : ℚ) : ℕ → ℕ → Option ℕ
  | 0, _ => none
  | rem + 1, t =>
      if overlapPoint ≤ (t : ℚ) / 10 then some t
      else overlapPollLoop overlapPoint rem (t + 1)

/-- The whole wait routine: the tick at which `overlap_allowed` is raised (if
any), and the tick at which the routine returns — the second loop runs until
the engine reports not playing, i.e. until tick `playingTicks`. -/
def waitForSongWithOverlap (overlapPoint : ℚ) (playingTicks : ℕ) :
    Option ℕ × ℕ :=
  (overlapPollLoop overlapPoint playingTicks 0, playingTicks)

/-- The gate in `_process_playlist` (line 257) before playing an intro/news
item: the wait continues while `is_running and not overlap_allowed and
is_audio_playing`; the item may start once that conjunction is false. -/
def introWaitProceeds (isRunning overlapAllowed playing : Bool) : Bool :=
  !(isRunning && !overlapAllowed && playing)

lemma overlapPollLoop_sound (op : ℚ) (rem : ℕ) :
    ∀ (t u : ℕ), overlapPollLoop op rem t = some u →
      op ≤ (u : ℚ) / 10 ∧ t ≤ u ∧
        ∀ t', t ≤ t' → t' < u → ¬ op ≤ (t' : ℚ) / 10 := by
  induction rem with
  | zero => intro t u h; exact absurd h (by simp [overlapPollLoop])
  | succ rem ih =>
      intro t u h
      rw [overlapPollLoop] at h
      by_cases hc : op ≤ (t : ℚ) / 10
      · rw [if_pos hc] at h
        obtain rfl : t = u := Option.some_injective _ h
        exact ⟨hc, le_refl t, fun t' h1 h2 => absurd h1 (by omega)⟩
      · rw [if_neg hc] at h
        obtain ⟨h1, h2, h3⟩ := ih (t + 1) u h
        refine ⟨h1, by omega, fun t' ht1 ht2 => ?_⟩
        rcases Nat.eq_or_lt_of_le ht1 with rfl | hlt
        · exact hc
        · exact h3 t' (by omega) ht2

lemma overlapPollLoop_complete (op : ℚ) (rem : ℕ) :
    ∀ (t u : ℕ), op ≤ (u : ℚ) / 10 →
      (∀ t', t ≤ t' → t' < u → ¬ op ≤ (t' : ℚ) / 10) →
      t ≤ u → u < t + rem →
      overlapPollLoop op rem t = some u := by
  induction rem with
  | zero => intro t u _ _ h3 h4; omega
  | succ rem ih =>
      intro t u h1 h2 h3 h4
      rw [overlapPollLoop]
      rcases Nat.eq_or_lt_of_le h3 with rfl | hlt
      · rw [if_pos h1]
      · rw [if_neg (h2 t (le_refl t) hlt)]
        exact ih (t + 1) u h1 (fun t' ht1 ht2 => h2 t' (by omega) ht2) (by omega)
          (by omega)

lemma overlapStartTime_200 : overlapStartTime 200 = 198 := by
  rw [overlapStartTime, songOverlapDuration]
  norm_num [max_def]

lemma overlap_signal_200_at_1980 :
    (waitForSongWithOverlap (overlapStartTime 200) 2000).1 = some 1980 := by
  show overlapPollLoop (overlapStartTime 200) 2000 0 = some 1980
  rw [overlapStartTime_200]
  refine overlapPollLoop_complete 198 2000 0 1980 (by norm_num) ?_ (by omega)
    (by omega)
  intro t' _ ht2
  rw [not_le, div_lt_iff (by norm_num)]
  norm_num
  exact_mod_cast ht2

/-- C6: if the song wait raises the transition-permitted signal at tick `u`,
then the overlap point `max(3, duration - 2)` had elapsed at `u` and at no
earlier tick; the routine keeps waiting until the engine stops playing; for a
200-second song the overlap point is 198 s and the signal fires at tick 1980
(= 198.0 s); and while the engine is playing, the intro/news gate lets the
item start exactly when the signal has been raised. -/
theorem transition_permitted_timing (d : ℚ) (pu u : ℕ)
    (h : (waitForSongWithOverlap (overlapStartTime d) pu).1 = some u) :
    overlapStartTime d ≤ (u : ℚ) / 10 ∧
    (∀ t', t' < u → ¬ overlapStartTime d ≤ (t' : ℚ) / 10) ∧
    (waitForSongWithOverlap (overlapStartTime d) pu).2 = pu ∧
    overlapStartTime 200 = 198 ∧
    (waitForSongWithOverlap (overlapStartTime 200) 2000).1 = some 1980 ∧
    (∀ overlapAllowed playing : Bool, playing = true →
      (introWaitProceeds true overlapAllowed playing = true ↔
        overlapAllowed = true)) := by
  obtain ⟨h1, _, h3⟩ := overlapPollLoop_sound (overlapStartTime d) pu 0 u h
  refine ⟨h1, fun t' ht => h3 t' (Nat.zero_le t') ht, rfl, overlapStartTime_200,
    overlap_signal_200_at_1980, ?_⟩
  intro overlapAllowed playing hp
  cases overlapAllowed <;> simp [introWaitProceeds, hp]

/-- Witness for `transition_permitted_timing` at the 200-second song played
for 2000 ticks, whose signal fires at tick 1980. -/
theorem transition_permitted_timing_witness :
    overlapStartTime 200 ≤ ((1980 : ℕ) : ℚ) / 10 ∧
    (∀ t' : ℕ, t' < 1980 → ¬ overlapStartTime 200 ≤ (t' : ℚ) / 10) ∧
    (waitForSongWithOverlap (overlapStartTime 200) 2000).2 = 2000 ∧
    overlapStartTime 200 = 198 ∧
    (waitForSongWithOverlap (overlapStartTime 200) 2000).1 = some 1980 ∧
    (∀ overlapAllowed playing : Bool, playing = true →
      (introWaitProceeds true overlapAllowed playing = true ↔
        overlapAllowed = true)) := by
  have h : (waitForSongWithOverlap (overlapStartTime 200) 2000).1 = some 1980 :=
    overlap_signal_200_at_1980
  exact transition_permitted_timing 200 2000 1980 h

/-! `wait_for_completion` (`audio_player.py` lines 529-548).  The docstring
promises `True if audio finished naturally, False if timed out or stopped`,
but the loop only watches `self.is_playing`: it returns `False` on timeout
and `True` as soon as `is_playing` is false, with no record of whether
playback ended naturally or was stopped by `stop_current_playback` (which
also sets `is_playing = False`).  The `endCause` argument records how
playback ended; the result of the code cannot and does not depend on it. -/

/-- How the engine flag `is_playing` became false. -/
inductive PlayEnd where
  | natural
  | stopped
deriving DecidableEq, Repr

/-- Python truthiness of the `timeout` guard `if timeout and ...`:
`None` and `0` are falsy. -/
def timeoutTruthy : Option ℚ → Bool
  | none => false
  | some q => decide (q ≠ 0)

/-- The polling loop of `wait_for_completion`: while `is_playing` (`rem`
playing ticks remain), return `False` once the elapsed time `t / 10` exceeds
the timeout, else sleep 0.1 s; return `True` when `is_playing` is false. -/
def waitLoop (timeout : Option ℚ) : ℕ → ℕ → Bool
  | 0, _ => true
  | rem + 1, t =>
      if timeoutTruthy timeout && decide (timeout.getD 0 < (t : ℚ) / 10) then false
      else waitLoop timeout rem (t + 1)

/-- Embeds `wait_for_completion(timeout)` when playback lasts `playingTicks` ticks
and then ends for reason `endCause`. -/
def waitForCompletion (timeout : Option ℚ) (playingTicks : ℕ)
    (endCause : PlayEnd) : Bool :=
  waitLoop timeout playingTicks 0

/-- C9 failing input: playback is stopped (not ended naturally) after 0.5 s
with no timeout; `wait_for_completion` still returns `True`, although its
own docstring (and the claim) require `False` when playback was stopped. -/
theorem wait_for_completion_stopped_returns_true :
    waitForCompletion none 5 PlayEnd.stopped = true ∧
    waitForCompletion none 5 PlayEnd.natural = true := ⟨rfl, rfl⟩

/-! `play_next_audio_realtime_crossfade` (`audio_player.py` lines 399-473).
`loadOk` says whether loading the next audio (mp3 decode, wav export, Sound
construction) succeeds; `somethingPlaying` is the test `self.is_playing and
self.current_channel and self.current_channel.get_busy()`.  The `except`
handler logs the error and calls `_play_single_audio` — which in turn catches
all of its own exceptions — so no exception ever propagates to the caller. -/

/-- What the engine ends up doing for one `play_next_audio_realtime_crossfade`
call. -/
inductive PlayAction where
  | directNew
  | realtimeCrossfade
  | fallbackSingle
deriving DecidableEq, Repr

/-- The caller-visible outcome of the call: whatever exception escapes to the
caller (there is none in the code), whether an error was logged, and the
action taken. -/
structure PlayOutcome where
  raisedToCaller : Option String
  loggedError : Bool
  action : PlayAction
deriving DecidableEq, Repr

/-- One call of `play_next_audio_realtime_crossfade`. -/
def playNextAudioRealtimeCrossfade (loadOk somethingPlaying : Bool) :
    PlayOutcome :=
  if loadOk = false then
    { raisedToCaller := none, loggedError := true,
      action := PlayAction.fallbackSingle }
  else if somethingPlaying = false then
    { raisedToCaller := none, loggedError := false,
      action := PlayAction.directNew }
  else
    { raisedToCaller := none, loggedError := false,
      action := PlayAction.realtimeCrossfade }

/-- C8 counterexample: when loading the new audio fails, the engine logs and
falls back to a direct play, but the exception is swallowed — nothing is
surfaced to the caller, contradicting the claimed PlaybackFailure. -/
theorem playback_failure_counterexample :
    (playNextAudioRealtimeCrossfade false true).raisedToCaller = none ∧
    (playNextAudioRealtimeCrossfade false true).loggedError = true ∧
    (playNextAudioRealtimeCrossfade false true).action =
      PlayAction.fallbackSingle :=
  ⟨rfl, rfl, rfl⟩

/-- C8 amended: if loading or starting the new audio fails, the engine logs
the failure and attempts a direct (non-crossfaded) play as a degraded
fallback; no exception reaches the caller (so the process does not crash),
and in particular no PlaybackFailure is surfaced. -/
theorem playback_failure_amended (loadOk somethingPlaying : Bool) :
    (playNextAudioRealtimeCrossfade loadOk somethingPlaying).raisedToCaller =
      none ∧
    (loadOk = false →
      (playNextAudioRealtimeCrossfade loadOk somethingPlaying).loggedError =
        true ∧
      (playNextAudioRealtimeCrossfade loadOk somethingPlaying).action =
        PlayAction.fallbackSingle) := by
  cases loadOk <;> cases somethingPlaying <;>
    simp [playNextAudioRealtimeCrossfade]

/-- Witness for `playback_failure_amended` at a failing load during active
playback. -/
theorem playback_failure_amended_witness :
    (playNextAudioRealtimeCrossfade false true).raisedToCaller = none ∧
    (playNextAudioRealtimeCrossfade false true).loggedError = true ∧
    (playNextAudioRealtimeCrossfade false true).action =
      PlayAction.fallbackSingle :=
  ⟨(playback_failure_amended false true).1,
    ((playback_failure_amended false true).2 rfl).1,
    ((playback_failure_amended false true).2 rfl).2⟩

/-! ### Section 5: fallback behaviour of the announcement generator

`announcement_generator.py`.  The Ollama calls are the only operations that
can raise inside `generate_introduction` and `_generate_news_synopsis`; they
are passed here as `Except` values (`Except.error` is a raised exception).
The RSS fetch failure mode of `_get_random_news_story` is caught internally
and surfaces as `none`.  `random.choice` over the fixed template lists is
passed as `Fin` indices.  Every embedded function is total: this is the
no-raise guarantee. -/

/-- The deterministic fallback of `generate_introduction` (lines 52-55). -/
def fallbackIntroduction (songTitle artist : String) : String :=
  "Here\x27s a fantastic track from " ++ artist ++ ". You\x27re about to hear "
    ++ songTitle ++
    ", a song that never fails to get the crowd moving. Turn it up and enjoy this one!"

/-- Embeds `_clean_response` (lines 82-93): strip, remove one pair of surrounding
double quotes, and drop a short prefix before the first colon. -/
def cleanResponse (response : String) : String :=
  let cleaned := response.trim
  let cleaned :=
    if cleaned.startsWith "\"" && cleaned.endsWith "\"" then
      (cleaned.drop 1).dropRight 1
    else cleaned
  if cleaned.contains ':' && ((cleaned.splitOn ":").headD "").length < 50 then
    (String.intercalate ":" (cleaned.splitOn ":").tail).trim
  else cleaned

/-- Python `str.split()` with no argument: split on whitespace runs,
dropping empty pieces. -/
def wordsOf (s : String) : List String :=
  (s.split Char.isWhitespace).filter (fun w => w ≠ "")

/-- Python `" ".join(words)`. -/
def joinWords (ws : List String) : String :=
  String.intercalate " " ws

/-- Embeds `generate_introduction` (lines 19-55): clean the first Ollama response,
trim to 40 words if over 70 words; if under 35 words, retry with a second
Ollama call and trim that to 40 words if over 40; any raised exception lands
in the handler that returns the deterministic fallback. -/
def generateIntroduction (firstCall secondCall : Except String String)
    (songTitle artist : String) : String :=
  match firstCall with
  | Except.error _ => fallbackIntroduction songTitle artist
  | Except.ok response =>
      let introduction := cleanResponse response
      let words := wordsOf introduction
      if words.length > 70 then joinWords (words.take 40)
      else if words.length < 35 then
        match secondCall with
        | Except.error _ => fallbackIntroduction songTitle artist
        | Except.ok r2 =>
            let introduction := cleanResponse r2
            let words := wordsOf introduction
            if words.length > 40 then joinWords (words.take 40) else introduction
      else introduction

/-- A news story as cached by `_get_random_news_story`. -/
structure NewsStory where
  title : String
  description : String
deriving DecidableEq, Repr

/-- The deterministic fallback of `_generate_news_synopsis` (line 202). -/
def fallbackNewsSynopsis (storyTitle : String) : String :=
  "In the news today: " ++ storyTitle ++
    ". For more details on this developing story, stay tuned to your trusted news sources."

/-- Embeds `_generate_news_synopsis` (lines 167-202): same clean-and-trim shape as
the introduction, with thresholds 110/90/100 and its own deterministic
fallback on any raised exception. -/
def generateNewsSynopsis (story : NewsStory)
    (firstCall secondCall : Except String String) : String :=
  match firstCall with
  | Except.error _ => fallbackNewsSynopsis story.title
  | Except.ok response =>
      let synopsis := cleanResponse response
      let words := wordsOf synopsis
      if words.length > 110 then joinWords (words.take 100)
      else if words.length < 90 then
        match secondCall with
        | Except.error _ => fallbackNewsSynopsis story.title
        | Except.ok r2 =>
            let synopsis := cleanResponse r2
            let words := wordsOf synopsis
            if words.length > 100 then joinWords (words.take 100) else synopsis
      else synopsis

/-- The seven transition templates of `_generate_music_transition`
(lines 204-216). -/
def newsTransitions (songTitle artist : String) : List String :=
  [ "Now let\x27s get back to the music with " ++ songTitle ++ " by " ++ artist ++ ".",
    "And now, back to the tunes - here\x27s " ++ songTitle ++ " by " ++ artist ++ ".",
    "That\x27s your news update. Now let\x27s turn up the volume with " ++ songTitle
      ++ " by " ++ artist ++ ".",
    "Now back to our regular programming with " ++ songTitle ++ " by " ++ artist ++ ".",
    "Time to get back to the music. Here\x27s " ++ songTitle ++ " by " ++ artist ++ ".",
    "And now, let\x27s continue with some great music - " ++ songTitle ++ " by "
      ++ artist ++ ".",
    "Back to the beats with " ++ songTitle ++ " by " ++ artist ++ "." ]

lemma newsTransitions_length (songTitle artist : String) :
    (newsTransitions songTitle artist).length = 7 := rfl

/-- Embeds `_generate_music_transition`: `random.choice(transitions)`, with the
choice index made explicit. -/
def generateMusicTransition (songTitle artist : String) (j : Fin 7) : String :=
  (newsTransitions songTitle artist).get
    (Fin.cast (newsTransitions_length songTitle artist).symm j)

/-- The four fallback news lines of `_generate_fallback_news_announcement`
(lines 218-230). -/
def fallbackNewsParts : List String :=
  [ "Stay informed with the latest news updates throughout the day.",
    "Keep up with current events and breaking news as it happens.",
    "For the latest news and weather updates, stay tuned to your local news sources.",
    "Remember to stay connected with what\x27s happening in your community and around the world." ]

lemma fallbackNewsParts_length : fallbackNewsParts.length = 4 := rfl

/-- Embeds `_generate_fallback_news_announcement`: a random fallback news line plus a
random music transition. -/
def generateFallbackNewsAnnouncement (songTitle artist : String)
    (i : Fin 4) (j : Fin 7) : String :=
  fallbackNewsParts.get (Fin.cast fallbackNewsParts_length.symm i) ++ " " ++
    generateMusicTransition songTitle artist j

/-- Embeds `generate_news_announcement` (lines 95-120): if no news story is
available, fall back; otherwise combine the synopsis with a music transition;
any raised exception lands in the handler that also falls back. -/
def generateNewsAnnouncement (story : Option NewsStory)
    (firstCall secondCall : Except String String)
    (i : Fin 4) (j : Fin 7) (songTitle artist : String) : String :=
  match story with
  | none => generateFallbackNewsAnnouncement songTitle artist i j
  | some s =>
      generateNewsSynopsis s firstCall secondCall ++ " " ++
        generateMusicTransition songTitle artist j

/-- C7 counterexample: with the news feed down and the same (title, artist),
two different random template draws produce two different news fallback
strings — the news fallback is not a deterministic function of the inputs. -/
theorem news_fallback_not_deterministic :
    generateNewsAnnouncement none (Except.error "down") (Except.error "down")
        0 0 "Song" "Artist" ≠
      generateNewsAnnouncement none (Except.error "down") (Except.error "down")
        1 0 "Song" "Artist" := by
  decide

/-- C7 amended: the generation operations are total (no exception reaches the
caller); on a failed Ollama call the introduction returns its deterministic
fallback string; the news announcement with no story available returns a
fallback drawn from the fixed template lists, and with a story but failing
Ollama calls returns the deterministic synopsis fallback plus a drawn
transition. -/
theorem generation_fallback_behaviour (songTitle artist e1 e2 : String)
    (i : Fin 4) (j : Fin 7) :
    generateIntroduction (Except.error e1) (Except.error e2) songTitle artist =
      fallbackIntroduction songTitle artist ∧
    generateNewsAnnouncement none (Except.error e1) (Except.error e2) i j
        songTitle artist =
      generateFallbackNewsAnnouncement songTitle artist i j ∧
    (∃ p ∈ fallbackNewsParts, ∃ t ∈ newsTransitions songTitle artist,
      generateFallbackNewsAnnouncement songTitle artist i j = p ++ " " ++ t) ∧
    (∀ s : NewsStory,
      generateNewsAnnouncement (some s) (Except.error e1) (Except.error e2) i j
          songTitle artist =
        fallbackNewsSynopsis s.title ++ " " ++
          generateMusicTransition songTitle artist j) := by
  refine ⟨rfl, rfl, ?_, fun s => rfl⟩
  exact ⟨_, List.get_mem _ _ _, _, List.get_mem _ _ _, rfl⟩

/-- Witness for `generation_fallback_behaviour` at concrete inputs. -/
theorem generation_fallback_behaviour_witness :
    generateIntroduction (Except.error "down") (Except.error "down") "S" "A" =
      fallbackIntroduction "S" "A" ∧
    generateNewsAnnouncement none (Except.error "down") (Except.error "down") 2 3
        "S" "A" =
      generateFallbackNewsAnnouncement "S" "A" 2 3 ∧
    (∃ p ∈ fallbackNewsParts, ∃ t ∈ newsTransitions "S" "A",
      generateFallbackNewsAnnouncement "S" "A" 2 3 = p ++ " " ++ t) ∧
    (∀ s : NewsStory,
      generateNewsAnnouncement (some s) (Except.error "down") (Except.error "down")
          2 3 "S" "A" =
        fallbackNewsSynopsis s.title ++ " " ++ generateMusicTransition "S" "A" 3) :=
  generation_fallback_behaviour "S" "A" "down" "down" 2 3

end AIDJ
